import Mathlib

/-!
Shallow embedding of the study-room backend:
  app/models/study_room.py        (StudyRoom record, to_dict)
  app/controllers/study_room_controller.py
    (create_study_room, get_study_room, get_all_study_rooms,
     update_study_room, delete_study_room)

Python dates/times are modelled as plain records of naturals; `strptime`
with formats %Y-%m-%d and %H:%M, `strftime('%H:%M')`, `date.isoformat`,
`int(...)` coercion and `str.strip()` are reproduced from CPython's
documented behaviour.  JSON payload values are modelled by `Value`
(string / integer / null); attribute errors raised by calling `.strip()`
on a non-string propagate as `Except.error`, mirroring the controllers'
outer `except Exception` handlers.
-/

namespace Backend57

/-- A Python `datetime.date`: year, month, day. -/
structure PyDate where
  year : Nat
  month : Nat
  day : Nat
deriving DecidableEq, Repr

/-- A Python `datetime.time` restricted to hour/minute (the only parts
the code ever parses or prints). -/
structure PyTime where
  hour : Nat
  minute : Nat
deriving DecidableEq, Repr

/-- A Python `datetime.datetime` as produced by `datetime.combine`. -/
structure PyDateTime where
  date : PyDate
  time : PyTime
deriving DecidableEq, Repr

/-- ASCII decimal digit test. -/
def isDigit (c : Char) : Bool := '0' ≤ c && c ≤ '9'

/-- Characters removed by Python `str.strip()` (ASCII whitespace). -/
def isPySpace (c : Char) : Bool :=
  c = ' ' || c = '\t' || c = '\n' || c = '\x0d' || c = '\x0b' || c = '\x0c'

/-- Python `str.strip()`. -/
def pyStripStr (s : String) : String :=
  String.mk (((s.toList.dropWhile isPySpace).reverse.dropWhile isPySpace).reverse)

/-- Numeric value of a list of ASCII digits. -/
def digitsVal (cs : List Char) : Nat :=
  cs.foldl (fun n c => 10 * n + (c.toNat - '0'.toNat)) 0

/-- All characters are ASCII digits and the list is nonempty. -/
def allDigits (cs : List Char) : Bool :=
  !cs.isEmpty && cs.all isDigit

/-- Tail of a Python integer-literal digit run: digits with single
underscores allowed only between digits. -/
def usTail : List Char → Bool
  | [] => true
  | '_' :: [] => false
  | '_' :: d :: rest => isDigit d && usTail rest
  | c :: rest => isDigit c && usTail rest

/-- A Python `int()` digit run: nonempty, starts with a digit,
underscores only between digits. -/
def usDigits : List Char → Bool
  | [] => false
  | c :: rest => isDigit c && usTail rest

/-- `int(s)` for a string argument: optional surrounding whitespace, an
optional sign, then a digit run (underscore separators allowed).
`none` models `ValueError`. -/
def pyIntOfString (s : String) : Option Int :=
  let cs := (pyStripStr s).toList
  match cs with
  | '+' :: rest =>
      if usDigits rest then some (Int.ofNat (digitsVal (rest.filter isDigit))) else none
  | '-' :: rest =>
      if usDigits rest then some (-(Int.ofNat (digitsVal (rest.filter isDigit)))) else none
  | _ =>
      if usDigits cs then some (Int.ofNat (digitsVal (cs.filter isDigit))) else none

/-- Split a character list on a separator character (like
`str.split(sep)`: adjacent separators yield empty segments). -/
def splitOnChar (sep : Char) : List Char → List (List Char)
  | [] => [[]]
  | c :: rest =>
      if c = sep then [] :: splitOnChar sep rest
      else
        match splitOnChar sep rest with
        | [] => [[c]]
        | h :: t => (c :: h) :: t

/-- Is `y` a Gregorian leap year (Python `calendar.isleap`)? -/
def isLeap (y : Nat) : Bool :=
  y % 4 = 0 && (y % 100 ≠ 0 || y % 400 = 0)

/-- Days in month `m` of year `y`. -/
def daysInMonth (y m : Nat) : Nat :=
  if m = 2 then (if isLeap y then 29 else 28)
  else if m = 4 || m = 6 || m = 9 || m = 11 then 30
  else 31

/-- `datetime.strptime(s, '%Y-%m-%d').date()`: exactly four year digits,
one or two month digits, one or two day digits, the whole string
consumed, and the resulting date a valid calendar date with year ≥ 1.
`none` models `ValueError`. -/
def parseDate (s : String) : Option PyDate :=
  match splitOnChar '-' s.toList with
  | [yc, mc, dc] =>
      if yc.length = 4 && allDigits yc &&
         mc.length ≤ 2 && allDigits mc &&
         dc.length ≤ 2 && allDigits dc then
        let y := digitsVal yc
        let m := digitsVal mc
        let d := digitsVal dc
        if 1 ≤ y && 1 ≤ m && m ≤ 12 && 1 ≤ d && d ≤ daysInMonth y m then
          some ⟨y, m, d⟩
        else none
      else none
  | _ => none

/-- `datetime.strptime(s, '%H:%M').time()`: one or two digits each for
hour (0–23) and minute (0–59), whole string consumed. -/
def parseTime (s : String) : Option PyTime :=
  match splitOnChar ':' s.toList with
  | [hc, mc] =>
      if hc.length ≤ 2 && allDigits hc && mc.length ≤ 2 && allDigits mc then
        let h := digitsVal hc
        let m := digitsVal mc
        if h ≤ 23 && m ≤ 59 then some ⟨h, m⟩ else none
      else none
  | _ => none

/-- Left-pad the decimal rendering of `n` with zeros to width `w`. -/
def padNum (w n : Nat) : String :=
  let s := toString n
  String.mk (List.replicate (w - s.length) '0') ++ s

/-- `date.isoformat()`: `YYYY-MM-DD`. -/
def isoformatDate (d : PyDate) : String :=
  padNum 4 d.year ++ "-" ++ padNum 2 d.month ++ "-" ++ padNum 2 d.day

/-- `datetime.isoformat()`: `YYYY-MM-DDTHH:MM:00`. -/
def isoformatDateTime (t : PyDateTime) : String :=
  isoformatDate t.date ++ "T" ++ padNum 2 t.time.hour ++ ":" ++ padNum 2 t.time.minute ++ ":00"

/-- `dt.strftime('%H:%M')` for a datetime. -/
def strftimeHM (t : PyDateTime) : String :=
  padNum 2 t.time.hour ++ ":" ++ padNum 2 t.time.minute

/-- A JSON scalar appearing in a request payload. -/
inductive Value where
  | vStr (s : String)
  | vInt (n : Int)
  | vNull
deriving DecidableEq, Repr

/-- `int(v)` for a payload value: `none` models `ValueError`/`TypeError`
(both caught by the controllers' capacity/creator_id handlers). -/
def pyInt : Value → Option Int
  | .vStr s => pyIntOfString s
  | .vInt n => some n
  | .vNull => none

/-- `v.strip()`: succeeds only on strings; on anything else raises
`AttributeError`, modelled as `Except.error`. -/
def pyStrip : Value → Except String String
  | .vStr s => .ok (pyStripStr s)
  | .vInt _ => .error "AttributeError: strip"
  | .vNull => .error "AttributeError: strip"

/-- JSON documents, as produced by `jsonify`. -/
inductive Json where
  | null
  | str (s : String)
  | int (n : Int)
  | arr (xs : List Json)
  | obj (fields : List (String × Json))
deriving Repr

/-- Field lookup in a JSON object. -/
def jGet (j : Json) (k : String) : Option Json :=
  match j with
  | .obj fields => fields.lookup k
  | _ => none

/-- An HTTP response: status code plus JSON body. -/
structure Response where
  status : Nat
  body : Json

/-- The User row reached through the `creator` relationship. -/
structure Creator where
  id : Int
  username : String
  email : String
deriving DecidableEq, Repr

/-- A value held in a date/datetime column of a stored row.  Besides
well-typed `datetime`/`date` objects the row may hold a raw string, SQL
NULL, or some other object (whose `str()` rendering is carried); the
last three arise from external writes and drive the defensive
serialization code. -/
inductive StoredVal where
  | dt (v : PyDateTime)
  | date (v : PyDate)
  | str (s : String)
  | null
  | obj (s : String)
deriving DecidableEq, Repr

/-- A StudyRoom row (app/models/study_room.py). -/
structure Room where
  room_id : Nat
  name : String
  description : Option String
  capacity : Int
  creator_id : Int
  date : StoredVal
  start_time : StoredVal
  end_time : StoredVal
  location : Option String
  mode : Option String
  creator : Option Creator
deriving DecidableEq, Repr

/-- The study_rooms table: rows plus the next auto-assigned primary key. -/
structure Store where
  rooms : List Room
  nextId : Nat
deriving DecidableEq, Repr

/-- Nullability flags of the schema columns
(app/models/study_room.py lines 10–19). -/
structure StudyRoomSchema where
  name_nullable : Bool
  capacity_nullable : Bool
  creator_id_nullable : Bool
  date_nullable : Bool
  start_time_nullable : Bool
  end_time_nullable : Bool
deriving DecidableEq

/-- The declared schema: `end_time = db.Column(db.DateTime, nullable=True)`,
all the other listed columns `nullable=False`. -/
def studyRoomSchema : StudyRoomSchema :=
  { name_nullable := false, capacity_nullable := false, creator_id_nullable := false,
    date_nullable := false, start_time_nullable := false, end_time_nullable := true }

/-- The controllers' shared time formatting (controller lines 145–161 and
258–274): `strftime('%H:%M')` under `try`, falling back to the raw value
for strings and `'00:00'` otherwise; `None` keeps the `'00:00'` default.
A stored `date` object has `strftime` and prints as `'00:00'`. -/
def ctrlTimeStr : StoredVal → String
  | .null => "00:00"
  | .dt v => strftimeHM v
  | .date _ => "00:00"
  | .str s => s
  | .obj _ => "00:00"

/-- The controllers' date formatting (lines 139–143 and 252–256):
`isoformat()` under `try`, falling back to `str(value)`; `None` leaves
the default `None`. -/
def ctrlDateStr : StoredVal → Option String
  | .null => none
  | .dt v => some (isoformatDateTime v)
  | .date d => some (isoformatDate d)
  | .str s => some s
  | .obj s => some s

/-- The `creator` sub-object built by the controllers and `to_dict`:
`{id, username, email}` when a creator is attached, `{}` otherwise. -/
def creatorJson : Option Creator → Json
  | some c => .obj [("id", .int c.id), ("username", .str c.username), ("email", .str c.email)]
  | none => .obj []

/-- `creator_data.get('username', 'Anonymous')`. -/
def hostName : Option Creator → String
  | some c => c.username
  | none => "Anonymous"

/-- Python truthiness fallback `value if value else ''` for optional
string columns. -/
def pyOrEmpty : Option String → String
  | some s => s
  | none => ""

/-- Manual response building of `get_study_room`
(controller lines 126–180). -/
def serializeRoomOne (room : Room) : Json :=
  let start_time_str := ctrlTimeStr room.start_time
  let end_time_str := ctrlTimeStr room.end_time
  let date_str := ctrlDateStr room.date
  Json.obj [
    ("room_id", .int room.room_id),
    ("id", .str ("room-" ++ toString room.room_id)),
    ("name", .str room.name),
    ("subject", .str (pyOrEmpty room.description)),
    ("capacity", .int room.capacity),
    ("description", .str (pyOrEmpty room.description)),
    ("participants", .arr []),
    ("host", .str (hostName room.creator)),
    ("creator_id", .int room.creator_id),
    ("creator", creatorJson room.creator),
    ("date", .str (match date_str with | some s => s | none => "")),
    ("start_time", .str (if start_time_str = "" then "00:00" else start_time_str)),
    ("end_time", .str (if end_time_str = "" then "00:00" else end_time_str)),
    ("location", .str (pyOrEmpty room.location)),
    ("mode", .str (pyOrEmpty room.mode))]

/-- Per-room response building of `get_all_study_rooms`
(controller lines 238–290): `host` is the creator object, `date` may be
JSON null, and the raw time strings are used without a final emptiness
guard. -/
def serializeRoomAll (room : Room) : Json :=
  Json.obj [
    ("room_id", .int room.room_id),
    ("name", .str room.name),
    ("description", .str (pyOrEmpty room.description)),
    ("capacity", .int room.capacity),
    ("creator_id", .int room.creator_id),
    ("creator", creatorJson room.creator),
    ("host", creatorJson room.creator),
    ("date", (match ctrlDateStr room.date with | some s => .str s | none => .null)),
    ("start_time", .str (ctrlTimeStr room.start_time)),
    ("end_time", .str (ctrlTimeStr room.end_time)),
    ("location", .str (pyOrEmpty room.location)),
    ("mode", .str (pyOrEmpty room.mode))]

/-- `to_dict`'s date string (model lines 50–58): `''` default,
`isoformat()` under `try`, fallback `str(self.date) if self.date else ''`. -/
def dictDateStr : StoredVal → String
  | .null => ""
  | .dt v => isoformatDateTime v
  | .date d => isoformatDate d
  | .str s => s
  | .obj s => s

/-- `to_dict`'s time string (model lines 60–74): `'00:00'` default under
a truthiness guard, `strftime` under `try` with `str(value)` fallback,
then forced back to `'00:00'` unless exactly five characters long. -/
def dictTimeStr (v : StoredVal) : String :=
  let s : String :=
    match v with
    | .null => "00:00"
    | .dt t => strftimeHM t
    | .date _ => "00:00"
    | .str s => if s = "" then "00:00" else s
    | .obj r => r
  if s = "" || s.length ≠ 5 then "00:00" else s

/-- `StudyRoom.to_dict` (model lines 38–94), the canonical serialization
used by the update handler's 200 response. -/
def to_dict (room : Room) : Json :=
  Json.obj [
    ("room_id", .int room.room_id),
    ("id", .str ("room-" ++ toString room.room_id)),
    ("name", .str room.name),
    ("subject", .str (pyOrEmpty room.description)),
    ("description", .str (pyOrEmpty room.description)),
    ("capacity", .int room.capacity),
    ("participants", .arr []),
    ("host", .str (hostName room.creator)),
    ("creator_id", .int room.creator_id),
    ("creator", creatorJson room.creator),
    ("date", .str (dictDateStr room.date)),
    ("start_time", .str (dictTimeStr room.start_time)),
    ("end_time", .str (dictTimeStr room.end_time)),
    ("location", .str (pyOrEmpty room.location)),
    ("mode", .str (pyOrEmpty room.mode))]

/-- The 400 / 404 message responses used throughout the controllers. -/
def msgResp (status : Nat) (m : String) : Response :=
  ⟨status, .obj [("message", .str m)]⟩

/-- Fallback payload of `get_study_room` when serialization of a found
room raises (controller lines 186–203): placeholder data plus an
`error` field, returned with 200. -/
def fallbackOneSer (id : Nat) (e : String) : Json :=
  Json.obj [
    ("room_id", .int id),
    ("id", .str ("room-" ++ toString id)),
    ("name", .str ("Room " ++ toString id)),
    ("subject", .str ""),
    ("description", .str ""),
    ("capacity", .int 0),
    ("participants", .arr []),
    ("host", .str "Unknown"),
    ("creator_id", .int 0),
    ("creator", .obj [("id", .int 0), ("username", .str "Unknown"), ("email", .str "")]),
    ("date", .str ""),
    ("start_time", .str "00:00"),
    ("end_time", .str "00:00"),
    ("location", .str ""),
    ("mode", .str ""),
    ("error", .str ("Error: " ++ e))]

/-- Fallback payload of `get_study_room`'s outermost handler
(controller lines 207–224), e.g. when the query itself raises. -/
def fallbackOneOuter (id : Nat) (e : String) : Json :=
  Json.obj [
    ("room_id", .int id),
    ("id", .str ("room-" ++ toString id)),
    ("name", .str ("Error Room " ++ toString id)),
    ("subject", .str ""),
    ("description", .str ""),
    ("capacity", .int 0),
    ("participants", .arr []),
    ("host", .str "Unknown"),
    ("creator_id", .int 0),
    ("creator", .obj [("id", .int 0), ("username", .str "Unknown"), ("email", .str "")]),
    ("date", .str ""),
    ("start_time", .str "00:00"),
    ("end_time", .str "00:00"),
    ("location", .str ""),
    ("mode", .str ""),
    ("error", .str ("Error: " ++ e))]

/-- Per-room fallback appended by `get_all_study_rooms` when one room's
serialization raises (controller lines 296–310). -/
def fallbackAllRec (r : Room) (e : String) : Json :=
  Json.obj [
    ("room_id", .int r.room_id),
    ("name", .str ("Room " ++ toString r.room_id)),
    ("description", .str ""),
    ("capacity", .int 0),
    ("creator_id", .int 0),
    ("creator", .obj [("id", .int 0), ("username", .str "Unknown"), ("email", .str "")]),
    ("host", .obj [("id", .int 0), ("username", .str "Unknown"), ("email", .str "")]),
    ("date", .null),
    ("start_time", .str "00:00"),
    ("end_time", .str "00:00"),
    ("location", .str ""),
    ("mode", .str ""),
    ("error", .str ("Error: " ++ e))]

/-- `get_study_room` (controller lines 113–224).  The database lookup
and the serialization of a found room are passed in as effectful
results so that the handler's `try/except` structure is explicit:
a failed query hits the outermost handler, a missing room yields 404,
and a failed serialization yields the 200 fallback payload. -/
def get_study_room (qres : Except String (Option Room))
    (ser : Room → Except String Json) (id : Nat) : Response :=
  match qres with
  | .error e => ⟨200, fallbackOneOuter id e⟩
  | .ok none => msgResp 404 "Room not found"
  | .ok (some room) =>
      match ser room with
      | .ok payload => ⟨200, payload⟩
      | .error e => ⟨200, fallbackOneSer id e⟩

/-- `StudyRoom.query.get(id)` over the table model. -/
def findRoom (store : Store) (id : Nat) : Option Room :=
  store.rooms.find? (fun r => r.room_id == id)

/-- `get_study_room` with the query answered from the store and the
concrete (non-raising) serialization. -/
def get_study_room_run (store : Store) (id : Nat) : Response :=
  get_study_room (.ok (findRoom store id)) (fun r => .ok (serializeRoomOne r)) id

/-- One room of the fetch-all response: the serialized room, or the
per-room fallback when its serialization raises. -/
def serOrFallback (ser : Room → Except String Json) (r : Room) : Json :=
  match ser r with
  | .ok j => j
  | .error e => fallbackAllRec r e

/-- `get_all_study_rooms` (controller lines 226–317): a failed query
degrades to `[]` with 200; otherwise each room is serialized with a
per-room fallback. -/
def get_all_study_rooms (qres : Except String (List Room))
    (ser : Room → Except String Json) : Response :=
  match qres with
  | .error _ => ⟨200, .arr []⟩
  | .ok rooms => ⟨200, .arr (rooms.map (serOrFallback ser))⟩

/-- `get_all_study_rooms` with the query answered from the store and the
concrete serialization. -/
def get_all_study_rooms_run (store : Store) : Response :=
  get_all_study_rooms (.ok store.rooms) (fun r => .ok (serializeRoomAll r))

/-- A parsed JSON request body. -/
abbrev PyDict := List (String × Value)

/-- `data.get(k)`. -/
def dGet? (data : PyDict) (k : String) : Option Value :=
  data.lookup k

/-- `data.get(k, default)`. -/
def dGetD (data : PyDict) (k : String) (dflt : Value) : Value :=
  (dGet? data k).getD dflt

/-- `k in data`. -/
def hasKey (data : PyDict) (k : String) : Bool :=
  (dGet? data k).isSome

/-- `required_fields` of `create_study_room` (controller line 23). -/
def requiredFields : List String :=
  ["name", "capacity", "creator_id", "date", "start_time", "end_time", "location", "mode"]

/-- The `description` handling of create (controller lines 89–91):
absent or `None` stays `None`; a truthy string is stripped; a falsy
value is kept as-is (modelled as the empty string, which serializes
identically); `.strip()` on a truthy non-string raises. -/
def descriptionOf : Option Value → Except String (Option String)
  | none => .ok none
  | some .vNull => .ok none
  | some (.vStr s) => if s = "" then .ok (some "") else .ok (some (pyStripStr s))
  | some (.vInt n) => if n = 0 then .ok (some "") else .error "AttributeError: strip"

/-- The body of `create_study_room`'s `try` block (controller lines
22–108) over a present JSON object: the validation pipeline in source
order, ending in persistence.  `Except.error` models an uncaught
exception reaching the outermost handler. -/
def createBody (data : PyDict) (store : Store) : Except String (Store × Response) :=
  if data.isEmpty || !(requiredFields.all (hasKey data)) then
    .ok (store, msgResp 400 "Missing required fields")
  else
    match pyStrip (dGetD data "name" (.vStr "")) with
    | .error e => .error e
    | .ok name =>
    if name = "" then .ok (store, msgResp 400 "Study room name cannot be empty") else
    match pyInt (dGetD data "capacity" .vNull) with
    | none => .ok (store, msgResp 400 "Capacity must be an integer")
    | some capacity =>
    if capacity ≤ 0 then .ok (store, msgResp 400 "Capacity must be greater than zero") else
    match pyInt (dGetD data "creator_id" .vNull) with
    | none => .ok (store, msgResp 400 "Creator ID must be an integer")
    | some creator_id =>
    match pyStrip (dGetD data "date" (.vStr "")) with
    | .error e => .error e
    | .ok date_str =>
    if date_str = "" then .ok (store, msgResp 400 "Date is required") else
    match parseDate date_str with
    | none => .ok (store, msgResp 400 "Invalid date format, expected YYYY-MM-DD")
    | some date_obj =>
    match pyStrip (dGetD data "start_time" (.vStr "")) with
    | .error e => .error e
    | .ok start_time_str =>
    if start_time_str = "" then .ok (store, msgResp 400 "Start time is required") else
    match parseTime start_time_str with
    | none => .ok (store, msgResp 400 "Invalid start_time format, expected HH:mm")
    | some start_tod =>
    match pyStrip (dGetD data "end_time" (.vStr "")) with
    | .error e => .error e
    | .ok end_time_str =>
    if end_time_str = "" then .ok (store, msgResp 400 "End time is required") else
    match parseTime end_time_str with
    | none => .ok (store, msgResp 400 "Invalid end_time format, expected HH:mm")
    | some end_tod =>
    match pyStrip (dGetD data "location" (.vStr "")) with
    | .error e => .error e
    | .ok location =>
    if location = "" then .ok (store, msgResp 400 "Location is required") else
    match pyStrip (dGetD data "mode" (.vStr "")) with
    | .error e => .error e
    | .ok mode =>
    if mode = "" then .ok (store, msgResp 400 "Mode is required") else
    match descriptionOf (dGet? data "description") with
    | .error e => .error e
    | .ok description =>
    let new_room : Room :=
      { room_id := store.nextId, name := name, description := description,
        capacity := capacity, creator_id := creator_id,
        date := .date date_obj,
        start_time := .dt ⟨date_obj, start_tod⟩,
        end_time := .dt ⟨date_obj, end_tod⟩,
        location := some location, mode := some mode, creator := none }
    .ok ({ rooms := store.rooms ++ [new_room], nextId := store.nextId + 1 },
         ⟨201, .obj [("message", .str "Study room created"), ("room_id", .int store.nextId)]⟩)

/-- `create_study_room` (controller lines 9–111): a `None` body fails
the `not data` check; an uncaught exception rolls back and yields 500. -/
def create_study_room (data : Option PyDict) (store : Store) : Store × Response :=
  match data with
  | none => (store, msgResp 400 "Missing required fields")
  | some d =>
      match createBody d store with
      | .ok r => r
      | .error e => (store, ⟨500, .obj [("message", .str "Creation failed"), ("error", .str e)]⟩)

/-- `datetime.combine(room.date, time_obj)` (controller lines 348 and
355): the first argument must be a `date` (a `datetime` contributes its
date part); anything else raises `TypeError`, which the surrounding
`except ValueError` does not catch. -/
def combineWithDate : StoredVal → PyTime → Except String PyDateTime
  | .date d, t => .ok ⟨d, t⟩
  | .dt w, t => .ok ⟨w.date, t⟩
  | _, _ => .error "TypeError: combine"

/-- Outcome of one field handler inside `update_study_room`: an uncaught
exception, an early 400 return (with the record as mutated so far), or
the mutated record passed on to the next field. -/
def andThenStep (x : Except String (Room × Option Response))
    (f : Room → Except String (Room × Option Response)) :
    Except String (Room × Option Response) :=
  match x with
  | .error e => .error e
  | .ok (r, some resp) => .ok (r, some resp)
  | .ok (r, none) => f r

/-- `if 'name' in data: room.name = data['name'].strip()`
(controller lines 329–330). -/
def stepName (data : PyDict) (r : Room) : Except String (Room × Option Response) :=
  match dGet? data "name" with
  | none => .ok (r, none)
  | some v =>
      match pyStrip v with
      | .error e => .error e
      | .ok s => .ok ({ r with name := s }, none)

/-- `if 'description' in data: room.description = data['description'].strip()`
(controller lines 331–332). -/
def stepDescription (data : PyDict) (r : Room) : Except String (Room × Option Response) :=
  match dGet? data "description" with
  | none => .ok (r, none)
  | some v =>
      match pyStrip v with
      | .error e => .error e
      | .ok s => .ok ({ r with description := some s }, none)

/-- Capacity handling of update (controller lines 333–337): integer
coercion only, no positivity check; failure returns 400 with the record
as mutated so far. -/
def stepCapacity (data : PyDict) (r : Room) : Except String (Room × Option Response) :=
  match dGet? data "capacity" with
  | none => .ok (r, none)
  | some v =>
      match pyInt v with
      | none => .ok (r, some (msgResp 400 "Capacity must be an integer"))
      | some n => .ok ({ r with capacity := n }, none)

/-- Date handling of update (controller lines 338–343). -/
def stepDate (data : PyDict) (r : Room) : Except String (Room × Option Response) :=
  match dGet? data "date" with
  | none => .ok (r, none)
  | some v =>
      match pyStrip v with
      | .error e => .error e
      | .ok ds =>
          match parseDate ds with
          | none => .ok (r, some (msgResp 400 "Invalid date format, expected YYYY-MM-DD"))
          | some d => .ok ({ r with date := .date d }, none)

/-- start_time handling of update (controller lines 344–350): the
parsed time-of-day is combined with the record's current `date`. -/
def stepStartTime (data : PyDict) (r : Room) : Except String (Room × Option Response) :=
  match dGet? data "start_time" with
  | none => .ok (r, none)
  | some v =>
      match pyStrip v with
      | .error e => .error e
      | .ok s =>
          match parseTime s with
          | none => .ok (r, some (msgResp 400 "Invalid start_time format, expected HH:mm"))
          | some t =>
              match combineWithDate r.date t with
              | .error e => .error e
              | .ok w => .ok ({ r with start_time := .dt w }, none)

/-- end_time handling of update (controller lines 351–357). -/
def stepEndTime (data : PyDict) (r : Room) : Except String (Room × Option Response) :=
  match dGet? data "end_time" with
  | none => .ok (r, none)
  | some v =>
      match pyStrip v with
      | .error e => .error e
      | .ok s =>
          match parseTime s with
          | none => .ok (r, some (msgResp 400 "Invalid end_time format, expected HH:mm"))
          | some t =>
              match combineWithDate r.date t with
              | .error e => .error e
              | .ok w => .ok ({ r with end_time := .dt w }, none)

/-- `if 'location' in data: room.location = data['location'].strip()`
(controller lines 358–359). -/
def stepLoc (data : PyDict) (r : Room) : Except String (Room × Option Response) :=
  match dGet? data "location" with
  | none => .ok (r, none)
  | some v =>
      match pyStrip v with
      | .error e => .error e
      | .ok s => .ok ({ r with location := some s }, none)

/-- `if 'mode' in data: room.mode = data['mode'].strip()`
(controller lines 360–361). -/
def stepMode (data : PyDict) (r : Room) : Except String (Room × Option Response) :=
  match dGet? data "mode" with
  | none => .ok (r, none)
  | some v =>
      match pyStrip v with
      | .error e => .error e
      | .ok s => .ok ({ r with mode := some s }, none)

/-- The field-update sequence of `update_study_room` (controller lines
328–361), in source order. -/
def updateBody (data : PyDict) (room0 : Room) : Except String (Room × Option Response) :=
  andThenStep (stepName data room0) (fun r =>
  andThenStep (stepDescription data r) (fun r =>
  andThenStep (stepCapacity data r) (fun r =>
  andThenStep (stepDate data r) (fun r =>
  andThenStep (stepStartTime data r) (fun r =>
  andThenStep (stepEndTime data r) (fun r =>
  andThenStep (stepLoc data r) (fun r =>
  stepMode data r)))))))

/-- Replace the row with primary key `id` (the effect of
`db.session.commit()` on a mutated loaded row). -/
def commitRoom (store : Store) (id : Nat) (r : Room) : Store :=
  { store with rooms := store.rooms.map (fun x => if x.room_id == id then r else x) }

/-- Result of an update call: the committed store, the in-memory state
of the loaded record when the handler returns (`none` when no record
was found, the original record after a 500 rollback), and the response. -/
structure UpdateOutcome where
  store : Store
  mem : Option Room
  resp : Response

/-- `update_study_room` (controller lines 319–367): 404 when absent;
field-by-field mutation with early 400 returns that skip the commit but
keep the in-memory mutations; commit plus `to_dict` on success; 500 and
rollback on an uncaught exception. -/
def update_study_room (store : Store) (id : Nat) (data0 : Option PyDict) : UpdateOutcome :=
  match findRoom store id with
  | none => ⟨store, none, msgResp 404 "Room not found"⟩
  | some room =>
      let data := data0.getD []
      match updateBody data room with
      | .error e =>
          ⟨store, some room, ⟨500, .obj [("message", .str "Update failed"), ("error", .str e)]⟩⟩
      | .ok (r, some resp) => ⟨store, some r, resp⟩
      | .ok (r, none) => ⟨commitRoom store id r, some r, ⟨200, to_dict r⟩⟩

/-! Concrete fixtures used by witnesses and counterexamples. -/

/-- A wholly valid create payload. -/
def sampleData : PyDict :=
  [("name", .vStr "Quiet Room"), ("capacity", .vInt 4), ("creator_id", .vInt 7),
   ("date", .vStr "2024-06-01"), ("start_time", .vStr "09:00"), ("end_time", .vStr "10:30"),
   ("location", .vStr "Library"), ("mode", .vStr "online")]

/-- Payload update helper for fixtures: replace the value at a key. -/
def dSet (data : PyDict) (k : String) (v : Value) : PyDict :=
  (k, v) :: data.filter (fun p => p.1 ≠ k)

/-- `sampleData` with the `end_time` key removed. -/
def sampleDataNoEnd : PyDict :=
  [("name", .vStr "Quiet Room"), ("capacity", .vInt 4), ("creator_id", .vInt 7),
   ("date", .vStr "2024-06-01"), ("start_time", .vStr "09:00"),
   ("location", .vStr "Library"), ("mode", .vStr "online")]

/-- The empty table. -/
def emptyStore : Store := ⟨[], 1⟩

/-- The row persisted by a successful create of `sampleData` on
`emptyStore`. -/
def room1 : Room :=
  { room_id := 1, name := "Quiet Room", description := none, capacity := 4, creator_id := 7,
    date := .date ⟨2024, 6, 1⟩, start_time := .dt ⟨⟨2024, 6, 1⟩, ⟨9, 0⟩⟩,
    end_time := .dt ⟨⟨2024, 6, 1⟩, ⟨10, 30⟩⟩, location := some "Library",
    mode := some "online", creator := none }

/-- A store holding just `room1`. -/
def store1 : Store := ⟨[room1], 2⟩

/-- A row whose `start_time` column holds the raw string `"hello"` and
whose `end_time` column holds SQL NULL. -/
def weirdRoom : Room :=
  { room_id := 5, name := "w", description := none, capacity := 3, creator_id := 1,
    date := .date ⟨2024, 6, 1⟩, start_time := .str "hello", end_time := .null,
    location := none, mode := none, creator := none }

/-- A store holding just `weirdRoom`. -/
def weirdStore : Store := ⟨[weirdRoom], 6⟩

/-- A create payload with all eight required keys, string-valued except
for the integer `capacity` and `creator_id`. -/
def mkPayload (nm : String) (c cid : Int) (ds ss es loc md : String) : PyDict :=
  [("name", .vStr nm), ("capacity", .vInt c), ("creator_id", .vInt cid),
   ("date", .vStr ds), ("start_time", .vStr ss), ("end_time", .vStr es),
   ("location", .vStr loc), ("mode", .vStr md)]

/-! Helper lemmas. -/

/-- Complete case analysis of `createBody`: it raises, returns a 400
with the store unchanged, or appends exactly one new room whose
capacity is the positive coerced payload capacity and whose
`start_time`/`end_time` reuse the parsed `date`. -/
lemma createBody_ok (d : PyDict) (store st' : Store) (resp : Response)
    (h : createBody d store = .ok (st', resp)) :
    (st' = store ∧ ∃ m, resp = msgResp 400 m) ∨
    (∃ r : Room, 0 < r.capacity ∧
       pyInt (dGetD d "capacity" .vNull) = some r.capacity ∧
       (∃ dd stt ett, r.date = .date dd ∧ r.start_time = .dt ⟨dd, stt⟩ ∧
                      r.end_time = .dt ⟨dd, ett⟩) ∧
       st' = { rooms := store.rooms ++ [r], nextId := store.nextId + 1 } ∧
       resp = ⟨201, .obj [("message", .str "Study room created"),
                          ("room_id", .int store.nextId)]⟩) := by
  unfold createBody at h
  repeat' split at h
  all_goals try exact Except.noConfusion h
  all_goals injection h with h2
  all_goals injection h2 with ha hb
  all_goals subst ha
  all_goals subst hb
  all_goals try exact Or.inl ⟨rfl, _, rfl⟩
  refine Or.inr ⟨_, ?_, ?_, ⟨_, _, _, rfl, rfl, rfl⟩, rfl, rfl⟩
  · exact not_le.mp (by assumption)
  · assumption

/-- `create_study_room` on a present body: either the store is
unchanged and the status is 400 or 500, or exactly one new room is
appended, with positive capacity, agreeing date components, and a 201
response. -/
lemma create_cases (d : PyDict) (store : Store) :
    (∃ resp, create_study_room (some d) store = (store, resp) ∧
       (resp.status = 400 ∨ resp.status = 500)) ∨
    (∃ r : Room, 0 < r.capacity ∧
       pyInt (dGetD d "capacity" .vNull) = some r.capacity ∧
       (∃ dd stt ett, r.date = .date dd ∧ r.start_time = .dt ⟨dd, stt⟩ ∧
                      r.end_time = .dt ⟨dd, ett⟩) ∧
       create_study_room (some d) store =
         ({ rooms := store.rooms ++ [r], nextId := store.nextId + 1 },
          ⟨201, .obj [("message", .str "Study room created"),
                      ("room_id", .int store.nextId)]⟩)) := by
  rcases hb : createBody d store with e | ⟨st', resp⟩
  · refine Or.inl ⟨⟨500, .obj [("message", .str "Creation failed"), ("error", .str e)]⟩, ?_, Or.inr rfl⟩
    simp [create_study_room, hb]
  · rcases createBody_ok d store st' resp hb with ⟨hst, m, hresp⟩ | ⟨r, hpos, hcap, hdates, hst, hresp⟩
    · refine Or.inl ⟨resp, ?_, Or.inl ?_⟩
      · simp [create_study_room, hb, hst]
      · rw [hresp]; rfl
    · refine Or.inr ⟨r, hpos, hcap, hdates, ?_⟩
      simp [create_study_room, hb, hst, hresp]

/-! Claim theorems. -/

/-- C1: For every fetch-one and fetch-all request the response status is
never 5xx: fetch-one responds 404 with `{message: "Room not found"}`
exactly when no record with the given id exists, and any serialization
failure on either read path is converted into a 200 response carrying
placeholder data plus an `error` field (fetch-one per-record, fetch-all
per-record placeholder or whole-list empty sequence). -/
theorem C1_read_paths_never_500 :
    (∀ (qres : Except String (Option Room)) (ser : Room → Except String Json) (id : Nat),
       (get_study_room qres ser id).status ≠ 500 ∧
       ((get_study_room qres ser id).status = 404 ↔ qres = .ok none) ∧
       (qres = .ok none → get_study_room qres ser id = msgResp 404 "Room not found") ∧
       (∀ r e, qres = .ok (some r) → ser r = .error e →
          get_study_room qres ser id = ⟨200, fallbackOneSer id e⟩ ∧
          jGet (fallbackOneSer id e) "error" = some (.str ("Error: " ++ e)))) ∧
    (∀ (store : Store) (id : Nat),
       ((get_study_room_run store id).status = 404 ↔ findRoom store id = none)) ∧
    (∀ (qres : Except String (List Room)) (ser : Room → Except String Json),
       (get_all_study_rooms qres ser).status = 200 ∧
       (∀ e, qres = .error e → (get_all_study_rooms qres ser).body = .arr []) ∧
       (∀ rooms, qres = .ok rooms →
          (get_all_study_rooms qres ser).body = .arr (rooms.map (serOrFallback ser)) ∧
          (∀ r e, ser r = .error e →
             serOrFallback ser r = fallbackAllRec r e ∧
             jGet (fallbackAllRec r e) "error" = some (.str ("Error: " ++ e))))) := by
  refine ⟨?_, ?_, ?_⟩
  · intro qres ser id
    rcases qres with e | o
    · exact ⟨by simp [get_study_room], by simp [get_study_room], by simp, by simp⟩
    · rcases o with _ | room
      · exact ⟨by simp [get_study_room, msgResp], by simp [get_study_room, msgResp],
               fun _ => rfl, by simp⟩
      · refine ⟨?_, ?_, by simp, ?_⟩
        · rcases hs : ser room with e | j <;> simp [get_study_room, hs]
        · rcases hs : ser room with e | j <;> simp [get_study_room, hs]
        · intro r e hr hserr
          have hrr : r = room := by injection hr with h1; injection h1 with h2; exact h2.symm
          subst hrr
          simp [get_study_room, hserr]
          rfl
  · intro store id
    unfold get_study_room_run
    rcases hf : findRoom store id with _ | r <;>
      simp [get_study_room, msgResp, hf]
  · intro qres ser
    rcases qres with e | rooms
    · exact ⟨rfl, fun _ _ => rfl, by simp [get_all_study_rooms]⟩
    · refine ⟨rfl, by simp [get_all_study_rooms], ?_⟩
      intro rooms2 h
      have : rooms2 = rooms := by injection h with h1; exact h1.symm
      subst this
      refine ⟨rfl, ?_⟩
      intro r e hserr
      exact ⟨by simp [serOrFallback, hserr], rfl⟩

/-- Witness for C1 at concrete inputs: a missing room yields the 404
message response, and a raising serializer yields the 200 fallback. -/
theorem C1_read_paths_never_500_witness :
    get_study_room (.ok none) (fun r => .ok (serializeRoomOne r)) 3
      = msgResp 404 "Room not found" ∧
    get_study_room (.ok (some room1)) (fun _ => .error "boom") 1
      = ⟨200, fallbackOneSer 1 "boom"⟩ :=
  ⟨(C1_read_paths_never_500.1 (.ok none) (fun r => .ok (serializeRoomOne r)) 3).2.2.1 rfl,
   ((C1_read_paths_never_500.1 (.ok (some room1)) (fun _ => .error "boom") 1).2.2.2
      room1 "boom" rfl rfl).1⟩

/-- C2 counterexample: the stored string `"hello"` is a malformed time
value (not of the form HH:MM), yet every read path returns it verbatim
rather than `"00:00"`: fetch-one, fetch-all, and the canonical
serialization all yield `"hello"`. -/
theorem C2_counterexample :
    weirdRoom.start_time = .str "hello" ∧
    jGet (get_study_room_run weirdStore 5).body "start_time" = some (.str "hello") ∧
    (get_all_study_rooms_run weirdStore).body = .arr [serializeRoomAll weirdRoom] ∧
    jGet (serializeRoomAll weirdRoom) "start_time" = some (.str "hello") ∧
    jGet (to_dict weirdRoom) "start_time" = some (.str "hello") ∧
    "hello" ≠ "00:00" ∧
    (get_study_room_run weirdStore 5).status = 200 :=
  ⟨rfl, rfl, rfl, rfl, rfl, by decide, rfl⟩

/-- C2 amended: a stored time that is SQL NULL serializes as `"00:00"`
on every read path; a stored non-string object serializes as `"00:00"`
on both controller read paths, and through the canonical serialization
becomes its `str()` rendering when that is exactly five characters and
`"00:00"` otherwise; a stored string is passed through verbatim by
fetch-all, passed through by fetch-one with only the empty string
replaced by `"00:00"`, and passed through by the canonical
serialization exactly when five characters long (else `"00:00"`).
Fetch-one on a present record always returns 200. -/
theorem C2_amended :
    (∀ r : Room, r.start_time = .null ∨ r.end_time = .null →
       (r.start_time = .null →
          jGet (serializeRoomOne r) "start_time" = some (.str "00:00") ∧
          jGet (serializeRoomAll r) "start_time" = some (.str "00:00") ∧
          jGet (to_dict r) "start_time" = some (.str "00:00")) ∧
       (r.end_time = .null →
          jGet (serializeRoomOne r) "end_time" = some (.str "00:00") ∧
          jGet (serializeRoomAll r) "end_time" = some (.str "00:00") ∧
          jGet (to_dict r) "end_time" = some (.str "00:00"))) ∧
    (∀ (r : Room) (o : String), r.start_time = .obj o →
       jGet (serializeRoomOne r) "start_time" = some (.str "00:00") ∧
       jGet (serializeRoomAll r) "start_time" = some (.str "00:00") ∧
       jGet (to_dict r) "start_time"
         = some (.str (if o = "" || o.length ≠ 5 then "00:00" else o))) ∧
    (∀ (r : Room) (s : String), r.start_time = .str s →
       jGet (serializeRoomOne r) "start_time" = some (.str (if s = "" then "00:00" else s)) ∧
       jGet (serializeRoomAll r) "start_time" = some (.str s) ∧
       jGet (to_dict r) "start_time"
         = some (.str (if s = "" || s.length ≠ 5 then "00:00" else s))) ∧
    (∀ (store : Store) (id : Nat) (r : Room), findRoom store id = some r →
       (get_study_room_run store id).status = 200) := by
  have hone : ∀ r : Room, jGet (serializeRoomOne r) "start_time"
      = some (.str (if ctrlTimeStr r.start_time = "" then "00:00" else ctrlTimeStr r.start_time)) :=
    fun _ => rfl
  have honeE : ∀ r : Room, jGet (serializeRoomOne r) "end_time"
      = some (.str (if ctrlTimeStr r.end_time = "" then "00:00" else ctrlTimeStr r.end_time)) :=
    fun _ => rfl
  have hall : ∀ r : Room, jGet (serializeRoomAll r) "start_time"
      = some (.str (ctrlTimeStr r.start_time)) := fun _ => rfl
  have hallE : ∀ r : Room, jGet (serializeRoomAll r) "end_time"
      = some (.str (ctrlTimeStr r.end_time)) := fun _ => rfl
  have hdict : ∀ r : Room, jGet (to_dict r) "start_time"
      = some (.str (dictTimeStr r.start_time)) := fun _ => rfl
  have hdictE : ∀ r : Room, jGet (to_dict r) "end_time"
      = some (.str (dictTimeStr r.end_time)) := fun _ => rfl
  refine ⟨?_, ?_, ?_, ?_⟩
  · intro r _
    constructor
    · intro h
      rw [hone r, hall r, hdict r, h]
      exact ⟨rfl, rfl, rfl⟩
    · intro h
      rw [honeE r, hallE r, hdictE r, h]
      exact ⟨rfl, rfl, rfl⟩
  · intro r o h
    rw [hone r, hall r, hdict r, h]
    exact ⟨rfl, rfl, rfl⟩
  · intro r s h
    rw [hone r, hall r, hdict r, h]
    refine ⟨rfl, rfl, ?_⟩
    rcases eq_or_ne s "" with hs | hs
    · subst hs; rfl
    · simp [dictTimeStr, hs]
  · intro store id r hf
    simp [get_study_room_run, get_study_room, hf]

/-- Witness for C2 amended at `weirdRoom` (string `"hello"` start_time,
NULL end_time). -/
theorem C2_amended_witness :
    jGet (serializeRoomOne weirdRoom) "end_time" = some (.str "00:00") ∧
    jGet (serializeRoomOne weirdRoom) "start_time" = some (.str "hello") ∧
    (get_study_room_run weirdStore 5).status = 200 :=
  ⟨((C2_amended.1 weirdRoom (Or.inr rfl)).2 rfl).1,
   (C2_amended.2.2.1 weirdRoom "hello" rfl).1,
   C2_amended.2.2.2 weirdStore 5 weirdRoom rfl⟩

/-- C3: For every existing record and every update payload whose `name`
value is a string and whose `capacity` value fails integer coercion,
the update responds 400 with the capacity-specific message, the commit
is skipped (the store is unchanged), and the in-memory record already
carries the stripped new name — no all-or-nothing staging. -/
theorem C3_update_non_atomic (store : Store) (id : Nat) (r : Room) (s : String) (vcap : Value)
    (hfind : findRoom store id = some r) (hbad : pyInt vcap = none) :
    (update_study_room store id (some [("name", .vStr s), ("capacity", vcap)])).resp
      = msgResp 400 "Capacity must be an integer" ∧
    (update_study_room store id (some [("name", .vStr s), ("capacity", vcap)])).mem
      = some { r with name := pyStripStr s } ∧
    (update_study_room store id (some [("name", .vStr s), ("capacity", vcap)])).store
      = store := by
  have hbody : updateBody [("name", .vStr s), ("capacity", vcap)] r
      = .ok ({ r with name := pyStripStr s },
             some (msgResp 400 "Capacity must be an integer")) := by
    simp [updateBody, stepName, stepDescription, stepCapacity, andThenStep,
          dGet?, pyStrip, hbad, List.lookup]
  unfold update_study_room
  rw [hfind]
  simp only [Option.getD_some, hbody]
  exact ⟨trivial, trivial, trivial⟩

/-- Witness for C3: updating `room1` with a new name and `capacity`
`"abc"` yields the 400, leaves the store untouched, and the in-memory
record has the stripped new name. -/
theorem C3_update_non_atomic_witness :
    (update_study_room store1 1 (some [("name", .vStr " New Name "), ("capacity", .vStr "abc")])).resp
      = msgResp 400 "Capacity must be an integer" ∧
    (update_study_room store1 1 (some [("name", .vStr " New Name "), ("capacity", .vStr "abc")])).mem
      = some { room1 with name := pyStripStr " New Name " } ∧
    (update_study_room store1 1 (some [("name", .vStr " New Name "), ("capacity", .vStr "abc")])).store
      = store1 :=
  C3_update_non_atomic store1 1 room1 " New Name " (.vStr "abc") (by decide) (by decide)

/-- C4 counterexample: the update operation accepts `capacity = "0"`,
responding 200 and committing a record with capacity 0, so the
`capacity > 0` invariant does not survive updates. -/
theorem C4_counterexample :
    (update_study_room store1 1 (some [("capacity", .vStr "0")])).resp.status = 200 ∧
    ((update_study_room store1 1 (some [("capacity", .vStr "0")])).store.rooms.map Room.capacity)
      = [0] := by
  constructor
  · decide
  · decide

/-- C4 amended: the invariant `capacity > 0` holds after any successful
create — create rejects non-positive or non-coercible capacity, so a
store whose rooms all have positive capacity still does after create —
but update coerces `capacity` to an integer without any positivity
check, so the invariant is not preserved by update (see the
counterexample). -/
theorem C4_amended :
    (∀ (data : Option PyDict) (store : Store),
       (∀ r ∈ store.rooms, 0 < r.capacity) →
       (create_study_room data store).2.status = 201 →
       ∀ r ∈ (create_study_room data store).1.rooms, 0 < r.capacity) ∧
    (∀ (d : PyDict) (store : Store) (vc : Value),
       dGet? d "capacity" = some vc →
       (∀ n, pyInt vc = some n → n ≤ 0) →
       (create_study_room (some d) store).2.status ≠ 201) := by
  constructor
  · intro data store hinv h201
    cases data with
    | none => simp [create_study_room, msgResp] at h201
    | some d =>
      rcases create_cases d store with ⟨resp, heq, h45⟩ | ⟨room, hpos, _, _, heq⟩
      · rw [heq] at h201
        have h201' : resp.status = 201 := h201
        rcases h45 with h | h <;> omega
      · rw [heq] at h201 ⊢
        intro r hr
        rcases List.mem_append.mp hr with h | h
        · exact hinv r h
        · rw [List.mem_singleton.mp h]
          exact hpos
  · intro d store vc hvc hbad h201
    rcases create_cases d store with ⟨resp, heq, h45⟩ | ⟨room, hpos, hcap, _, heq⟩
    · rw [heq] at h201
      have h201' : resp.status = 201 := h201
      rcases h45 with h | h <;> omega
    · rw [show dGetD d "capacity" .vNull = vc from by simp [dGetD, hvc]] at hcap
      exact absurd hpos (not_lt.mpr (hbad room.capacity hcap))

/-- Witness for C4 amended: creating `sampleData` over the empty store
preserves the positivity invariant, and creating with capacity 0 does
not return 201. -/
theorem C4_amended_witness :
    (∀ r ∈ (create_study_room (some sampleData) emptyStore).1.rooms, 0 < r.capacity) ∧
    (create_study_room (some (dSet sampleData "capacity" (.vInt 0))) emptyStore).2.status ≠ 201 :=
  ⟨C4_amended.1 (some sampleData) emptyStore (by simp [emptyStore]) (by decide),
   C4_amended.2 (dSet sampleData "capacity" (.vInt 0)) emptyStore (.vInt 0) (by decide)
     (fun n h => by injection h with h; omega)⟩

/-- C7: Any create request without an `end_time` key — including an
absent body — fails the required-keys check with 400 and the
"Missing required fields" message, and persists nothing, even though
the record schema declares the `end_time` column nullable. -/
theorem C7_missing_end_time_rejected (data : Option PyDict) (store : Store)
    (h : ∀ d, data = some d → hasKey d "end_time" = false) :
    (create_study_room data store).2 = msgResp 400 "Missing required fields" ∧
    (create_study_room data store).1 = store ∧
    studyRoomSchema.end_time_nullable = true := by
  cases data with
  | none => exact ⟨rfl, rfl, rfl⟩
  | some d =>
    have hd : hasKey d "end_time" = false := h d rfl
    have hall : (d.isEmpty || !(requiredFields.all (hasKey d))) = true := by
      simp [requiredFields, hd]
    have hbody : createBody d store = .ok (store, msgResp 400 "Missing required fields") := by
      unfold createBody
      rw [if_pos hall]
    refine ⟨?_, ?_, rfl⟩ <;> simp [create_study_room, hbody]

/-- Witness for C7: creating `sampleDataNoEnd` over `store1`. -/
theorem C7_missing_end_time_rejected_witness :
    (create_study_room (some sampleDataNoEnd) store1).2 = msgResp 400 "Missing required fields" ∧
    (create_study_room (some sampleDataNoEnd) store1).1 = store1 ∧
    studyRoomSchema.end_time_nullable = true :=
  C7_missing_end_time_rejected (some sampleDataNoEnd) store1
    (fun d hd => by injection hd with hd; subst hd; decide)

/-- C9: For every record serialized by the non-raising serializers, the
fetch-one `host` field is a plain string — the creator's username, or
`"Anonymous"` when no creator is attached — while the fetch-all `host`
field is the nested creator object with `id`, `username`, `email`
(the empty object when no creator is attached). -/
theorem C9_host_string_vs_object (r : Room) :
    jGet (serializeRoomOne r) "host"
      = some (.str (match r.creator with
                    | some c => c.username
                    | none => "Anonymous")) ∧
    jGet (serializeRoomAll r) "host"
      = some (match r.creator with
              | some c => .obj [("id", .int c.id), ("username", .str c.username),
                                ("email", .str c.email)]
              | none => .obj []) := by
  rcases r with ⟨_, _, _, _, _, _, _, _, _, _, creator⟩
  cases creator <;> exact ⟨rfl, rfl⟩

/-- C10: Every successful create persists exactly one new record whose
`start_time` and `end_time` datetimes carry the same date component as
the persisted `date` column — all three agree on the calendar day. -/
theorem C10_create_dates_agree (d : PyDict) (store : Store)
    (h201 : (create_study_room (some d) store).2.status = 201) :
    ∃ (r : Room) (dd : PyDate) (stt ett : PyTime),
      (create_study_room (some d) store).1.rooms = store.rooms ++ [r] ∧
      r.date = .date dd ∧ r.start_time = .dt ⟨dd, stt⟩ ∧ r.end_time = .dt ⟨dd, ett⟩ := by
  rcases create_cases d store with ⟨resp, heq, h45⟩ | ⟨room, _, _, ⟨dd, stt, ett, h1, h2, h3⟩, heq⟩
  · rw [heq] at h201
    have h201' : resp.status = 201 := h201
    rcases h45 with h | h <;> omega
  · rw [heq]
    exact ⟨room, dd, stt, ett, rfl, h1, h2, h3⟩

/-- Witness for C10: creating `sampleData` over the empty store. -/
theorem C10_create_dates_agree_witness :
    ∃ (r : Room) (dd : PyDate) (stt ett : PyTime),
      (create_study_room (some sampleData) emptyStore).1.rooms = emptyStore.rooms ++ [r] ∧
      r.date = .date dd ∧ r.start_time = .dt ⟨dd, stt⟩ ∧ r.end_time = .dt ⟨dd, ett⟩ :=
  C10_create_dates_agree sampleData emptyStore (by decide)

/-- C6 counterexample: a payload whose `capacity` is 0 but whose `name`
value is the integer 5 makes `data.get('name','').strip()` raise before
capacity validation, so create responds 500 (not 400); the store is
still unchanged. -/
theorem C6_counterexample :
    (create_study_room (some (dSet (dSet sampleData "name" (.vInt 5)) "capacity" (.vInt 0)))
        emptyStore).2.status = 500 ∧
    (500 : Nat) ≠ 400 ∧
    (create_study_room (some (dSet (dSet sampleData "name" (.vInt 5)) "capacity" (.vInt 0)))
        emptyStore).1 = emptyStore := by
  refine ⟨?_, ?_, ?_⟩ <;> decide

/-- C6 amended: for every create payload whose `capacity` value fails
integer coercion or coerces to a non-positive integer, create responds
400 and leaves the store unchanged provided the `name` value (examined
first) is a string; and regardless of the other fields, no record is
ever persisted for such a payload. -/
theorem C6_amended :
    (∀ (d : PyDict) (store : Store) (vc : Value),
       dGet? d "capacity" = some vc →
       (∀ n, pyInt vc = some n → n ≤ 0) →
       (∀ v, dGet? d "name" = some v → ∃ s, v = .vStr s) →
       (create_study_room (some d) store).2.status = 400 ∧
       (create_study_room (some d) store).1 = store) ∧
    (∀ (d : PyDict) (store : Store) (vc : Value),
       dGet? d "capacity" = some vc →
       (∀ n, pyInt vc = some n → n ≤ 0) →
       (create_study_room (some d) store).1 = store) := by
  have hstore : ∀ (d : PyDict) (store : Store) (vc : Value),
      dGet? d "capacity" = some vc →
      (∀ n, pyInt vc = some n → n ≤ 0) →
      (create_study_room (some d) store).1 = store := by
    intro d store vc hvc hbad
    rcases create_cases d store with ⟨resp, heq, _⟩ | ⟨room, hpos, hcap, _, heq⟩
    · rw [heq]
    · exfalso
      rw [show dGetD d "capacity" .vNull = vc from by simp [dGetD, hvc]] at hcap
      exact absurd hpos (not_lt.mpr (hbad _ hcap))
  refine ⟨?_, hstore⟩
  intro d store vc hvc hbad hname
  refine ⟨?_, hstore d store vc hvc hbad⟩
  have hbody : ∃ m, createBody d store = .ok (store, msgResp 400 m) := by
    unfold createBody
    by_cases h1 : (d.isEmpty || !(requiredFields.all (hasKey d))) = true
    · rw [if_pos h1]
      exact ⟨_, rfl⟩
    · rw [if_neg h1]
      simp only [Bool.or_eq_true, Bool.not_eq_true', not_or, Bool.not_eq_true,
                 Bool.not_eq_false, requiredFields, List.all_cons, List.all_nil,
                 Bool.and_eq_true, and_true] at h1
      obtain ⟨v, hv⟩ := Option.isSome_iff_exists.mp h1.2.1
      obtain ⟨s, rfl⟩ := hname v hv
      rw [show dGetD d "name" (.vStr "") = .vStr s from by simp [dGetD, hv]]
      simp only [pyStrip]
      by_cases hs : pyStripStr s = ""
      · rw [if_pos hs]
        exact ⟨_, rfl⟩
      · rw [if_neg hs]
        rw [show dGetD d "capacity" .vNull = vc from by simp [dGetD, hvc]]
        rcases hpi : pyInt vc with _ | n
        · exact ⟨_, rfl⟩
        · have hn : n ≤ 0 := hbad n hpi
          refine ⟨"Capacity must be greater than zero", ?_⟩
          simp [hn]
  obtain ⟨m, hm⟩ := hbody
  simp [create_study_room, hm, msgResp]

/-- Witness for C6 amended: capacity `"abc"` with a valid string name
gives 400 and an unchanged store; capacity 0 never persists. -/
theorem C6_amended_witness :
    ((create_study_room (some (dSet sampleData "capacity" (.vStr "abc"))) emptyStore).2.status = 400 ∧
     (create_study_room (some (dSet sampleData "capacity" (.vStr "abc"))) emptyStore).1 = emptyStore) ∧
    (create_study_room (some (dSet sampleData "capacity" (.vInt 0))) emptyStore).1 = emptyStore :=
  ⟨C6_amended.1 (dSet sampleData "capacity" (.vStr "abc")) emptyStore (.vStr "abc")
     (by decide)
     (fun n h => by
       rw [show pyInt (.vStr "abc") = none from by decide] at h
       exact Option.noConfusion h)
     (fun v hv => ⟨"Quiet Room", by injection hv with hv; exact hv.symm⟩),
   C6_amended.2 (dSet sampleData "capacity" (.vInt 0)) emptyStore (.vInt 0)
     (by decide) (fun n h => by injection h with h; omega)⟩

/-- C8: Updating `start_time`/`end_time` (valid HH:MM) combines the new
time-of-day with the record's current `date`: when the same payload
also carries a valid `date`, that just-updated date is used for both
timestamps; when it does not, the record's stored date is used. -/
theorem C8_times_use_current_date (store : Store) (id : Nat) (r : Room)
    (ds ss es : String) (d : PyDate) (st et : PyTime)
    (hfind : findRoom store id = some r)
    (hd : parseDate (pyStripStr ds) = some d)
    (hst : parseTime (pyStripStr ss) = some st)
    (het : parseTime (pyStripStr es) = some et) :
    ((update_study_room store id
        (some [("date", .vStr ds), ("start_time", .vStr ss), ("end_time", .vStr es)])).mem
      = some { r with date := .date d, start_time := .dt ⟨d, st⟩, end_time := .dt ⟨d, et⟩ } ∧
     (update_study_room store id
        (some [("date", .vStr ds), ("start_time", .vStr ss), ("end_time", .vStr es)])).resp.status
      = 200) ∧
    (∀ d0 : PyDate, r.date = .date d0 →
      (update_study_room store id (some [("start_time", .vStr ss)])).mem
        = some { r with start_time := .dt ⟨d0, st⟩ } ∧
      (update_study_room store id (some [("start_time", .vStr ss)])).resp.status = 200) := by
  constructor
  · have hbody : updateBody [("date", .vStr ds), ("start_time", .vStr ss), ("end_time", .vStr es)] r
        = .ok ({ r with date := .date d, start_time := .dt ⟨d, st⟩, end_time := .dt ⟨d, et⟩ },
               none) := by
      simp [updateBody, andThenStep, stepName, stepDescription, stepCapacity, stepDate,
            stepStartTime, stepEndTime, stepLoc, stepMode, dGet?, List.lookup, pyStrip,
            combineWithDate, hd, hst, het]
    unfold update_study_room
    rw [hfind]
    simp only [Option.getD_some, hbody]
    exact ⟨trivial, trivial⟩
  · intro d0 hd0
    have hbody : updateBody [("start_time", .vStr ss)] r
        = .ok ({ r with start_time := .dt ⟨d0, st⟩ }, none) := by
      simp [updateBody, andThenStep, stepName, stepDescription, stepCapacity, stepDate,
            stepStartTime, stepEndTime, stepLoc, stepMode, dGet?, List.lookup, pyStrip,
            combineWithDate, hd0, hst]
    unfold update_study_room
    rw [hfind]
    simp only [Option.getD_some, hbody]
    exact ⟨trivial, trivial⟩

/-- Witness for C8: updating `room1` with a new date and new times
recombines both timestamps with the new date; updating only
`start_time` reuses the stored date. -/
theorem C8_times_use_current_date_witness :
    ((update_study_room store1 1
        (some [("date", .vStr "2025-01-02"), ("start_time", .vStr "08:15"),
               ("end_time", .vStr "09:45")])).mem
      = some { room1 with date := .date ⟨2025, 1, 2⟩,
                          start_time := .dt ⟨⟨2025, 1, 2⟩, ⟨8, 15⟩⟩,
                          end_time := .dt ⟨⟨2025, 1, 2⟩, ⟨9, 45⟩⟩ } ∧
     (update_study_room store1 1
        (some [("date", .vStr "2025-01-02"), ("start_time", .vStr "08:15"),
               ("end_time", .vStr "09:45")])).resp.status = 200) ∧
    ((update_study_room store1 1 (some [("start_time", .vStr "08:15")])).mem
      = some { room1 with start_time := .dt ⟨⟨2024, 6, 1⟩, ⟨8, 15⟩⟩ } ∧
     (update_study_room store1 1 (some [("start_time", .vStr "08:15")])).resp.status = 200) :=
  ⟨(C8_times_use_current_date store1 1 room1 "2025-01-02" "08:15" "09:45"
      ⟨2025, 1, 2⟩ ⟨8, 15⟩ ⟨9, 45⟩ (by decide) (by decide) (by decide) (by decide)).1,
   (C8_times_use_current_date store1 1 room1 "2025-01-02" "08:15" "09:45"
      ⟨2025, 1, 2⟩ ⟨8, 15⟩ ⟨9, 45⟩ (by decide) (by decide) (by decide) (by decide)).2
     ⟨2024, 6, 1⟩ (by decide)⟩

/-- C5: Round-trip — for every valid create payload whose date string
is a canonical `YYYY-MM-DD` value and whose time strings are canonical
`HH:MM` values (they parse, and re-formatting the parsed values yields
the same strings), a subsequent fetch-one on the new room id returns
exactly those `date`, `start_time` and `end_time` strings with 200. -/
theorem C5_round_trip (store : Store) (nm loc md ds ss es : String) (c cid : Int)
    (d : PyDate) (st et : PyTime)
    (hfresh : ∀ r ∈ store.rooms, r.room_id ≠ store.nextId)
    (hnm : pyStripStr nm ≠ "") (hc : 0 < c)
    (hds : pyStripStr ds = ds) (hd : parseDate ds = some d) (hd2 : isoformatDate d = ds)
    (hss : pyStripStr ss = ss) (hst : parseTime ss = some st) (hst2 : strftimeHM ⟨d, st⟩ = ss)
    (hes : pyStripStr es = es) (het : parseTime es = some et) (het2 : strftimeHM ⟨d, et⟩ = es)
    (hloc : pyStripStr loc ≠ "") (hmd : pyStripStr md ≠ "") :
    (create_study_room (some (mkPayload nm c cid ds ss es loc md)) store).2.status = 201 ∧
    (get_study_room_run (create_study_room (some (mkPayload nm c cid ds ss es loc md)) store).1
        store.nextId).status = 200 ∧
    jGet (get_study_room_run (create_study_room (some (mkPayload nm c cid ds ss es loc md)) store).1
        store.nextId).body "date" = some (.str ds) ∧
    jGet (get_study_room_run (create_study_room (some (mkPayload nm c cid ds ss es loc md)) store).1
        store.nextId).body "start_time" = some (.str ss) ∧
    jGet (get_study_room_run (create_study_room (some (mkPayload nm c cid ds ss es loc md)) store).1
        store.nextId).body "end_time" = some (.str es) := by
  have hc' : ¬ (c ≤ 0) := not_le.mpr hc
  have hdne : ds ≠ "" := fun h => by rw [h] at hd; exact Option.noConfusion hd
  have hssne : ss ≠ "" := fun h => by rw [h] at hst; exact Option.noConfusion hst
  have hesne : es ≠ "" := fun h => by rw [h] at het; exact Option.noConfusion het
  have hbody : createBody (mkPayload nm c cid ds ss es loc md) store
      = .ok ({ rooms := store.rooms ++
                 [{ room_id := store.nextId, name := pyStripStr nm, description := none,
                    capacity := c, creator_id := cid, date := .date d,
                    start_time := .dt ⟨d, st⟩, end_time := .dt ⟨d, et⟩,
                    location := some (pyStripStr loc), mode := some (pyStripStr md),
                    creator := none }],
               nextId := store.nextId + 1 },
             ⟨201, .obj [("message", .str "Study room created"),
                         ("room_id", .int store.nextId)]⟩) := by
    simp [createBody, mkPayload, dGetD, dGet?, List.lookup, pyStrip, pyInt, descriptionOf,
          requiredFields, hasKey, hnm, hc', hds, hd, hdne, hss, hst, hssne,
          hes, het, hesne, hloc, hmd]
  have hcreate : create_study_room (some (mkPayload nm c cid ds ss es loc md)) store
      = ({ rooms := store.rooms ++
             [{ room_id := store.nextId, name := pyStripStr nm, description := none,
                capacity := c, creator_id := cid, date := .date d,
                start_time := .dt ⟨d, st⟩, end_time := .dt ⟨d, et⟩,
                location := some (pyStripStr loc), mode := some (pyStripStr md),
                creator := none }],
           nextId := store.nextId + 1 },
         ⟨201, .obj [("message", .str "Study room created"),
                     ("room_id", .int store.nextId)]⟩) := by
    simp [create_study_room, hbody]
  have hfindnew : findRoom
      { rooms := store.rooms ++
          [{ room_id := store.nextId, name := pyStripStr nm, description := none,
             capacity := c, creator_id := cid, date := .date d,
             start_time := .dt ⟨d, st⟩, end_time := .dt ⟨d, et⟩,
             location := some (pyStripStr loc), mode := some (pyStripStr md),
             creator := none }],
        nextId := store.nextId + 1 } store.nextId
      = some { room_id := store.nextId, name := pyStripStr nm, description := none,
               capacity := c, creator_id := cid, date := .date d,
               start_time := .dt ⟨d, st⟩, end_time := .dt ⟨d, et⟩,
               location := some (pyStripStr loc), mode := some (pyStripStr md),
               creator := none } := by
    unfold findRoom
    simp only [List.find?_append]
    rw [List.find?_eq_none.mpr (fun x hx => by simp [hfresh x hx])]
    simp
  rw [hcreate]
  refine ⟨rfl, ?_, ?_, ?_, ?_⟩
  · simp [get_study_room_run, get_study_room, hfindnew]
  · simp only [get_study_room_run, get_study_room, hfindnew]
    rw [show ∀ r : Room, jGet (serializeRoomOne r) "date"
          = some (.str (match ctrlDateStr r.date with | some s => s | none => ""))
        from fun _ => rfl]
    simp [ctrlDateStr, hd2]
  · simp only [get_study_room_run, get_study_room, hfindnew]
    rw [show ∀ r : Room, jGet (serializeRoomOne r) "start_time"
          = some (.str (if ctrlTimeStr r.start_time = "" then "00:00" else ctrlTimeStr r.start_time))
        from fun _ => rfl]
    simp [ctrlTimeStr, hst2, hssne]
  · simp only [get_study_room_run, get_study_room, hfindnew]
    rw [show ∀ r : Room, jGet (serializeRoomOne r) "end_time"
          = some (.str (if ctrlTimeStr r.end_time = "" then "00:00" else ctrlTimeStr r.end_time))
        from fun _ => rfl]
    simp [ctrlTimeStr, het2, hesne]

/-- Witness for C5 at the spec's concrete values: date `2024-06-01`,
start `09:00`, end `10:30` round-trip through create and fetch-one. -/
theorem C5_round_trip_witness :
    (create_study_room
        (some (mkPayload "Quiet Room" 4 7 "2024-06-01" "09:00" "10:30" "Library" "online"))
        emptyStore).2.status = 201 ∧
    (get_study_room_run
        (create_study_room
          (some (mkPayload "Quiet Room" 4 7 "2024-06-01" "09:00" "10:30" "Library" "online"))
          emptyStore).1 1).status = 200 ∧
    jGet (get_study_room_run
        (create_study_room
          (some (mkPayload "Quiet Room" 4 7 "2024-06-01" "09:00" "10:30" "Library" "online"))
          emptyStore).1 1).body "date" = some (.str "2024-06-01") ∧
    jGet (get_study_room_run
        (create_study_room
          (some (mkPayload "Quiet Room" 4 7 "2024-06-01" "09:00" "10:30" "Library" "online"))
          emptyStore).1 1).body "start_time" = some (.str "09:00") ∧
    jGet (get_study_room_run
        (create_study_room
          (some (mkPayload "Quiet Room" 4 7 "2024-06-01" "09:00" "10:30" "Library" "online"))
          emptyStore).1 1).body "end_time" = some (.str "10:30") :=
  C5_round_trip emptyStore "Quiet Room" "Library" "online" "2024-06-01" "09:00" "10:30" 4 7
    ⟨2024, 6, 1⟩ ⟨9, 0⟩ ⟨10, 30⟩
    (fun r hr => absurd hr (List.not_mem_nil r))
    (by decide) (by decide) (by decide) (by decide) (by decide) (by decide) (by decide)
    (by decide) (by decide) (by decide) (by decide) (by decide) (by decide)

end Backend57

